import Mathlib

/-!
Shallow embedding of the job-posting / notification fan-out flow of the
Farlance repository, `src/app/api/jobs/route.ts` (`POST` handler), together
with the delivery-outcome alphabet of `src/lib/notification-client.ts`
(`sendFrameNotification`).

External collaborators (the relational data store and the push-delivery
endpoint) are modelled by an `Env` record supplying their responses; the
handler observable effects (rows inserted, notification deliveries
attempted) are collected in a `Trace`.

JavaScript-specific semantics faithfully embedded:
  * `!x` truthiness on the three request fields: an absent field is falsy,
    an object or an array (even `[]`) is truthy, the number `0` is falsy;
  * the `profiles` join value may be `null`, an array of profile objects,
    or a single profile object (the shape ambiguity the source branches on);
  * `typeof`-number and not-`isNaN` filtering on `currentFid`;
  * a JS `Set<number>` iterated in insertion order.
`parseFloat` on the optional budget amount is abstracted: the embedded job
row stores the raw string handed to `parseFloat` (no claim touches the
parsed numeric value).  `description.substring(0, 70)` is embedded as
`String.take 70` (identical on the inputs used here).
-/

namespace Farlance

/-- A JavaScript value as it can appear in the `fid` field of a joined
profile object: a (non-NaN) number, `NaN`, `undefined`, `null`, or some
other non-numeric value such as a string. -/
inductive JSVal where
  | num (n : Int)
  | nan
  | undef
  | nullv
  | str (s : String)
deriving DecidableEq, Repr

/-- A joined profile object.  `fid = none` models the `fid` key being
absent (so the JS `in`-check for the `fid` key is `false`). -/
structure ProfileObj where
  fid : Option JSVal
deriving DecidableEq, Repr

/-- The shape of `us.profiles` as returned by the data store join:
`null`, an array of profile objects, or a single profile object. -/
inductive ProfilesValue where
  | nullv
  | arr (l : List ProfileObj)
  | single (p : ProfileObj)
deriving DecidableEq, Repr

/-- One row of the matcher query over `user_skills` joined to `profiles`. -/
structure UserSkillRow where
  user_id : String
  skill_id : String
  profiles : ProfilesValue
deriving DecidableEq, Repr

/-- The `jobData` object of the request body. -/
structure JobData where
  posterId : String
  title : String
  description : String
  budgetAmount : Option String
  budgetCurrency : Option String
  deadline : Option String
deriving DecidableEq, Repr

/-- The JSON request body `{ jobData, selectedSkillIds, posterFid }`;
`none` models an absent field. -/
structure RequestPayload where
  jobData : Option JobData
  selectedSkillIds : Option (List String)
  posterFid : Option Int
deriving DecidableEq, Repr

/-- A row of the `jobs` table as inserted by the handler.  `budget_amount`
holds the raw string handed to `parseFloat` (see file header). -/
structure JobRow where
  id : Nat
  poster_id : String
  title : String
  description : String
  budget_amount : Option String
  budget_currency : Option String
  deadline : Option String
  status : String
deriving DecidableEq, Repr

/-- A row of the `job_skills` association table. -/
structure JobSkillRow where
  job_id : Nat
  skill_id : String
deriving DecidableEq, Repr

/-- The payload handed to `sendFrameNotification` for one target. -/
structure NotificationPayload where
  fid : Int
  title : String
  body : String
  targetUrl : String
deriving DecidableEq, Repr

/-- Outcome of one `sendFrameNotification` call: the four result states of
`notification-client.ts`, plus a thrown exception (`exn`) caught by the
per-target `catch` in the fan-out loop. -/
inductive NotifyOutcome where
  | ok
  | noToken
  | rateLimit
  | errState
  | exn
deriving DecidableEq, Repr

/-- Responses of the external collaborators for one request: whether the
primary `jobs` insert errors and, if not, the generated row id; whether the
`job_skills` insert errors; whether the matcher query errors and, if not,
the `user_skills ⋈ profiles` rows the store holds; the per-fid delivery
outcome; and the app base URL used for the deep link. -/
structure Env where
  jobInsertError : Bool
  newJobId : Nat
  jobSkillsInsertError : Bool
  matchingError : Bool
  userSkills : List UserSkillRow
  notifyOutcome : Int → NotifyOutcome
  appBaseUrl : String

/-- The HTTP response: status, `message`, and the `jobId` field of the 200
body (`none` on the 400/500 bodies, which carry only `message`). -/
structure Response where
  status : Nat
  message : String
  jobId : Option Nat
deriving DecidableEq, Repr

/-- Observable effects of one request: `jobs` rows inserted, `job_skills`
rows inserted, notification deliveries attempted (in loop order), and
`console.error` log entries. -/
structure Trace where
  jobsInserted : List JobRow
  jobSkillsInserted : List JobSkillRow
  notifications : List NotificationPayload
  errorLogs : List String
deriving DecidableEq, Repr

/-- The empty trace (no effects). -/
def Trace.empty : Trace := ⟨[], [], [], []⟩

/-- JS truthiness of the `posterFid` request field: absent and `0` are
falsy, every other number is truthy. -/
def fidTruthy : Option Int → Bool
  | none => false
  | some n => n != 0

/-- The defensive fid extraction of the deduplicator, lines 75–88 of the
route: `currentFid` is `profileData[0]?.fid` when the join value is a
non-empty array, `profileData.fid` when it is a single object carrying a
`fid` key, and stays `null` otherwise; the row contributes a fid only when
`currentFid` has `typeof` number and is not `isNaN`. -/
def rowFid : ProfilesValue → Option Int
  | .arr (p :: _) =>
      match p.fid with
      | some (JSVal.num n) => some n
      | _ => none
  | .arr [] => none
  | .single p =>
      match p.fid with
      | some (JSVal.num n) => some n
      | _ => none
  | .nullv => none

/-- `Set.add` of a JS `Set` kept as an insertion-ordered duplicate-free
list. -/
def addUnique (l : List Int) (n : Int) : List Int :=
  if n ∈ l then l else l ++ [n]

/-- The deduplicator: fold the matched rows into the insertion-ordered set
`uniqueFidsToNotify`. -/
def uniqueFids (rows : List UserSkillRow) : List Int :=
  rows.foldl (fun acc r =>
    match rowFid r.profiles with
    | some n => addUnique acc n
    | none => acc) []

/-- Stable insertion of a row into a list sorted by `user_id` ascending. -/
def insertSorted (r : UserSkillRow) : List UserSkillRow → List UserSkillRow
  | [] => [r]
  | x :: xs =>
      if r.user_id < x.user_id then r :: x :: xs else x :: insertSorted r xs

/-- Stable sort by `user_id` ascending, modelling the `.order` clause of
the matcher query. -/
def orderByUserId : List UserSkillRow → List UserSkillRow
  | [] => []
  | r :: rest => insertSorted r (orderByUserId rest)

/-- The matcher query: every `user_skills` row whose `skill_id` is in the
supplied set (the `.in` filter on `skill_id`), ordered by `user_id`
ascending.  The `.not` filter that would exclude `jobData.posterId` is
commented out in the source, so no poster filter is applied. -/
def matchingQuery (userSkills : List UserSkillRow) (skillIds : List String) :
    List UserSkillRow :=
  orderByUserId (userSkills.filter (fun r => r.skill_id ∈ skillIds))

/-- Build the notification payload for one fid (route lines 98–103):
title referencing the job title, body with the 70-character description
excerpt, and the deep link `{base}/?jobId={id}`. -/
def mkPayload (baseUrl : String) (job : JobRow) (fid : Int) :
    NotificationPayload :=
  { fid := fid
    title := "✨ New Farlance Job: " ++ job.title
    body := "A new job matching your skills has been posted! \"" ++
      job.description.take 70 ++ "...\""
    targetUrl := baseUrl ++ "/?jobId=" ++ toString job.id }

/-- The fan-out loop (route lines 96–112): for each fid, attempt delivery;
an `error` result or a thrown exception is logged and the loop continues
with the next target.  Returns the attempted payloads in order and the
error log entries. -/
def notifyLoop (outcome : Int → NotifyOutcome)
    (mk : Int → NotificationPayload) :
    List Int → List NotificationPayload × List String
  | [] => ([], [])
  | fid :: rest =>
      let logHere : List String :=
        match outcome fid with
        | .errState => ["Failed to send notification to FID " ++ toString fid]
        | .exn => ["Unhandled error sending notification to FID " ++ toString fid]
        | _ => []
      let (attempts, logs) := notifyLoop outcome mk rest
      (mk fid :: attempts, logHere ++ logs)

/-- The `jobs` row built by the primary insert (route lines 28–40):
status fixed to `"open"`, optional fields sent to `null` when falsy. -/
def mkJobRow (id : Nat) (jd : JobData) : JobRow :=
  { id := id
    poster_id := jd.posterId
    title := jd.title
    description := jd.description
    budget_amount :=
      match jd.budgetAmount with
      | some s => if s = "" then none else some s
      | none => none
    budget_currency :=
      match jd.budgetCurrency with
      | some s => if s = "" then none else some s
      | none => none
    deadline :=
      match jd.deadline with
      | some s => if s = "" then none else some s
      | none => none
    status := "open" }

/-- The happy path after validation: primary insert, best-effort
`job_skills` insert, matcher query, deduplication, fan-out, 200 response. -/
def postBody (jd : JobData) (skillIds : List String) (env : Env) :
    Response × Trace :=
  if env.jobInsertError then
    ({ status := 500, message := "Failed to post job", jobId := none },
     { Trace.empty with errorLogs := ["Error inserting new job"] })
  else
    let newJob := mkJobRow env.newJobId jd
    let skillRows : List JobSkillRow :=
      if skillIds.length > 0 && !env.jobSkillsInsertError then
        skillIds.map (fun s => { job_id := newJob.id, skill_id := s })
      else []
    let skillLogs : List String :=
      if skillIds.length > 0 && env.jobSkillsInsertError then
        ["Error inserting job skills"]
      else []
    if env.matchingError then
      ({ status := 200, message := "Job posted successfully!",
         jobId := some newJob.id },
       { jobsInserted := [newJob], jobSkillsInserted := skillRows,
         notifications := [],
         errorLogs := skillLogs ++
           ["Error finding matching users for job notification"] })
    else
      let matched := matchingQuery env.userSkills skillIds
      let fids := uniqueFids matched
      let res :=
        notifyLoop env.notifyOutcome (mkPayload env.appBaseUrl newJob) fids
      ({ status := 200, message := "Job posted successfully!",
         jobId := some newJob.id },
       { jobsInserted := [newJob], jobSkillsInserted := skillRows,
         notifications := res.1,
         errorLogs := skillLogs ++ res.2 })

/-- The `POST` handler of `src/app/api/jobs/route.ts`.  The guard embeds
`if (!jobData || !selectedSkillIds || !posterFid)` under JS truthiness: an
absent field is falsy, a present object or array (even `[]`) is truthy,
and a present `posterFid` of `0` is falsy. -/
def POST (req : RequestPayload) (env : Env) : Response × Trace :=
  match req.jobData, req.selectedSkillIds, req.posterFid with
  | some jd, some skillIds, some pf =>
      if pf = 0 then
        ({ status := 400, message := "Missing job data, skills, or poster FID",
           jobId := none }, Trace.empty)
      else
        postBody jd skillIds env
  | _, _, _ =>
      ({ status := 400, message := "Missing job data, skills, or poster FID",
         jobId := none }, Trace.empty)

/-- JS truthiness of the whole guard: all three fields present and
`posterFid` truthy (an array field is truthy even when empty). -/
def requestValid (req : RequestPayload) : Bool :=
  req.jobData.isSome && req.selectedSkillIds.isSome && fidTruthy req.posterFid

/-- A sample `jobData` payload used in concrete witnesses. -/
def sampleJD : JobData :=
  { posterId := "p1", title := "Logo design"
    description := "Need a crisp logo", budgetAmount := none
    budgetCurrency := none, deadline := none }

/-- A sample environment where every external call succeeds and the store
holds no matching `user_skills` rows. -/
def sampleEnv : Env :=
  { jobInsertError := false, newJobId := 7, jobSkillsInsertError := false
    matchingError := false, userSkills := []
    notifyOutcome := fun _ => NotifyOutcome.ok
    appBaseUrl := "https://farlance.vercel.app" }

/-- An environment where only the `job_skills` association insert fails. -/
def skillFailEnv : Env :=
  { sampleEnv with jobSkillsInsertError := true }

/-- A `user_skills` row belonging to the poster of `sampleJD` (profile id
`p1`, external-identity id 5) and carrying required skill `s1`. -/
def posterRow : UserSkillRow :=
  { user_id := "p1", skill_id := "s1"
    profiles := ProfilesValue.single { fid := some (JSVal.num 5) } }

/-- An environment whose store holds exactly the poster row `posterRow`. -/
def posterEnv : Env :=
  { sampleEnv with userSkills := [posterRow] }

/-- A delivery-outcome function where the delivery to fid 1 throws and the
rest succeed. -/
def failOutcome : Int → NotifyOutcome :=
  fun n => if n = 1 then NotifyOutcome.exn else NotifyOutcome.ok

/-- A concrete payload constructor used in witnesses. -/
def sampleMk : Int → NotificationPayload :=
  mkPayload "https://farlance.vercel.app" (mkJobRow 7 sampleJD)

section Lemmas

/-- On a fully-present request with nonzero fid, `POST` runs the main
body. -/
theorem POST_valid_eq (jd : JobData) (sk : List String) (pf : Int)
    (env : Env) (hpf : pf ≠ 0) :
    POST ⟨some jd, some sk, some pf⟩ env = postBody jd sk env := by
  simp [POST, hpf]

/-- When the primary insert fails, the body answers 500 and records no
rows. -/
theorem postBody_insertError (jd : JobData) (sk : List String) (env : Env)
    (h : env.jobInsertError = true) :
    postBody jd sk env =
      ({ status := 500, message := "Failed to post job", jobId := none },
       { Trace.empty with errorLogs := ["Error inserting new job"] }) := by
  simp [postBody, h]

/-- When the primary insert succeeds, the response is the 200 success
response carrying the generated id. -/
theorem postBody_resp_ok (jd : JobData) (sk : List String) (env : Env)
    (h : env.jobInsertError = false) :
    (postBody jd sk env).1 =
      { status := 200, message := "Job posted successfully!",
        jobId := some env.newJobId } := by
  simp only [postBody, h, Bool.false_eq_true, if_false]
  split <;> rfl

/-- When the primary insert succeeds, exactly the one new row is
inserted. -/
theorem postBody_jobs_ok (jd : JobData) (sk : List String) (env : Env)
    (h : env.jobInsertError = false) :
    (postBody jd sk env).2.jobsInserted = [mkJobRow env.newJobId jd] := by
  simp only [postBody, h, Bool.false_eq_true, if_false]
  split <;> rfl

/-- The `job_skills` rows recorded by a successful body. -/
theorem postBody_skills_ok (jd : JobData) (sk : List String) (env : Env)
    (h : env.jobInsertError = false) :
    (postBody jd sk env).2.jobSkillsInserted =
      if sk.length > 0 && !env.jobSkillsInsertError then
        sk.map (fun s => { job_id := env.newJobId, skill_id := s })
      else [] := by
  simp only [postBody, h, Bool.false_eq_true, if_false]
  split <;> rfl

/-- The notification attempts of a successful body with a working
matcher. -/
theorem postBody_notifs_ok (jd : JobData) (sk : List String) (env : Env)
    (h1 : env.jobInsertError = false) (h2 : env.matchingError = false) :
    (postBody jd sk env).2.notifications =
      (notifyLoop env.notifyOutcome
        (mkPayload env.appBaseUrl (mkJobRow env.newJobId jd))
        (uniqueFids (matchingQuery env.userSkills sk))).1 := by
  simp [postBody, h1, h2]

/-- The attempts of the fan-out loop are exactly one payload per target,
independently of every delivery outcome. -/
theorem notifyLoop_fst (outcome : Int → NotifyOutcome)
    (mk : Int → NotificationPayload) (targets : List Int) :
    (notifyLoop outcome mk targets).1 = targets.map mk := by
  induction targets with
  | nil => rfl
  | cons f rest ih => simp [notifyLoop, ih]

/-- Adding to the JS set preserves freedom from duplicates. -/
theorem addUnique_nodup (l : List Int) (n : Int) (h : l.Nodup) :
    (addUnique l n).Nodup := by
  unfold addUnique
  split
  · exact h
  · next hn => simp [List.nodup_append, h, hn]

/-- The deduplicator fold preserves freedom from duplicates. -/
theorem uniqueFids_aux_nodup (rows : List UserSkillRow) :
    ∀ acc : List Int, acc.Nodup →
      (rows.foldl (fun acc r =>
        match rowFid r.profiles with
        | some n => addUnique acc n
        | none => acc) acc).Nodup := by
  induction rows with
  | nil => intro acc h; exact h
  | cons r rest ih =>
      intro acc h
      simp only [List.foldl_cons]
      cases hr : rowFid r.profiles with
      | none => exact ih acc h
      | some n => exact ih (addUnique acc n) (addUnique_nodup acc n h)

/-- The deduplicated target set holds no duplicate fid. -/
theorem uniqueFids_nodup (rows : List UserSkillRow) :
    (uniqueFids rows).Nodup :=
  uniqueFids_aux_nodup rows [] List.nodup_nil

/-- A row whose fid does not parse is the identity step of the fold. -/
theorem uniqueFids_aux_drop (r : UserSkillRow)
    (h : rowFid r.profiles = none) (pre post : List UserSkillRow) :
    ∀ acc : List Int,
      (pre ++ r :: post).foldl (fun acc r =>
        match rowFid r.profiles with
        | some n => addUnique acc n
        | none => acc) acc =
      (pre ++ post).foldl (fun acc r =>
        match rowFid r.profiles with
        | some n => addUnique acc n
        | none => acc) acc := by
  induction pre with
  | nil => intro acc; simp [List.foldl_cons, h]
  | cons p rest ih => intro acc; simp only [List.cons_append, List.foldl_cons]; exact ih _

/-- A failed matcher query yields no notification attempts. -/
theorem postBody_notifs_matchErr (jd : JobData) (sk : List String)
    (env : Env) (h1 : env.jobInsertError = false)
    (h2 : env.matchingError = true) :
    (postBody jd sk env).2.notifications = [] := by
  simp [postBody, h1, h2]

/-- The fids of the attempted payloads are exactly the target list when
the constructor stores its argument as `fid`. -/
theorem map_fid_notifyLoop (outcome : Int → NotifyOutcome)
    (mk : Int → NotificationPayload) (targets : List Int)
    (h : ∀ f, (mk f).fid = f) :
    ((notifyLoop outcome mk targets).1.map NotificationPayload.fid) =
      targets := by
  rw [notifyLoop_fst, List.map_map]
  have : (NotificationPayload.fid ∘ mk) = id := funext h
  rw [this, List.map_id]

/-- Membership in the JS set after one `add`. -/
theorem mem_addUnique (l : List Int) (n m : Int) :
    m ∈ addUnique l n ↔ m ∈ l ∨ m = n := by
  unfold addUnique
  split
  · next h =>
      constructor
      · exact Or.inl
      · rintro (hm | rfl)
        · exact hm
        · exact h
  · simp [List.mem_append]

/-- Membership in the dedup fold: a fid is collected exactly when it was
in the accumulator already or some row parses to it. -/
theorem mem_uniqueFids_aux (rows : List UserSkillRow) :
    ∀ (acc : List Int) (n : Int),
      n ∈ rows.foldl (fun acc r =>
        match rowFid r.profiles with
        | some m => addUnique acc m
        | none => acc) acc ↔
      n ∈ acc ∨ ∃ r ∈ rows, rowFid r.profiles = some n := by
  induction rows with
  | nil => simp
  | cons r rest ih =>
      intro acc n
      simp only [List.foldl_cons]
      cases hr : rowFid r.profiles with
      | none =>
          rw [ih]
          simp [hr]
      | some m =>
          rw [ih, mem_addUnique]
          simp only [List.mem_cons, hr]
          constructor
          · rintro ((hn | rfl) | ⟨r', hr', hn⟩)
            · exact Or.inl hn
            · exact Or.inr ⟨r, Or.inl rfl, hr⟩
            · exact Or.inr ⟨r', Or.inr hr', hn⟩
          · rintro (hn | ⟨r', (rfl | hr'), hn⟩)
            · exact Or.inl (Or.inl hn)
            · rw [hr] at hn
              exact Or.inl (Or.inr (Option.some_injective _ hn).symm)
            · exact Or.inr ⟨r', hr', hn⟩

/-- The deduplicated target set holds a fid exactly when some matched row
parses to it. -/
theorem mem_uniqueFids (rows : List UserSkillRow) (n : Int) :
    n ∈ uniqueFids rows ↔ ∃ r ∈ rows, rowFid r.profiles = some n := by
  unfold uniqueFids
  rw [mem_uniqueFids_aux]
  simp

/-- With an empty required-skill list, the matcher query returns no rows. -/
theorem matchingQuery_nil_skills (us : List UserSkillRow) :
    matchingQuery us [] = [] := by
  have h : us.filter (fun r => decide (r.skill_id ∈ ([] : List String))) = [] := by
    simp
  simp [matchingQuery, h, orderByUserId]

end Lemmas

/-- C1: for a payload with `jobData` present, a non-empty
`selectedSkillIds`, and `posterFid` present, if the handler answers 200
then exactly one job row was inserted, its status is `"open"`, and the
`jobId` of the body is that row's generated identifier. -/
theorem c1_success_inserts_one_open_job (jd : JobData) (sk : List String)
    (pf : Int) (env : Env) (hsk : sk ≠ [])
    (h200 : (POST ⟨some jd, some sk, some pf⟩ env).1.status = 200) :
    ∃ row : JobRow,
      (POST ⟨some jd, some sk, some pf⟩ env).2.jobsInserted = [row] ∧
      row.status = "open" ∧
      (POST ⟨some jd, some sk, some pf⟩ env).1.jobId = some row.id := by
  by_cases hpf : pf = 0
  · subst hpf; simp [POST] at h200
  · rw [POST_valid_eq jd sk pf env hpf] at h200 ⊢
    by_cases hins : env.jobInsertError = true
    · rw [postBody_insertError jd sk env hins] at h200; simp at h200
    · have hins' : env.jobInsertError = false := by
        simpa using hins
      refine ⟨mkJobRow env.newJobId jd, postBody_jobs_ok jd sk env hins',
        rfl, ?_⟩
      rw [postBody_resp_ok jd sk env hins']
      rfl

/-- Witness for C1 at a concrete request and environment. -/
theorem c1_success_inserts_one_open_job_witness :
    (["s1"] ≠ ([] : List String)) ∧
    ∃ row : JobRow,
      (POST ⟨some sampleJD, some ["s1"], some 5⟩ sampleEnv).2.jobsInserted
        = [row] ∧
      row.status = "open" ∧
      (POST ⟨some sampleJD, some ["s1"], some 5⟩ sampleEnv).1.jobId
        = some row.id :=
  ⟨by decide,
   c1_success_inserts_one_open_job sampleJD ["s1"] 5 sampleEnv (by decide)
     (by decide)⟩

/-- C2 counterexample: a payload whose `selectedSkillIds` is the empty
array is NOT rejected — an empty array is truthy in JS, so validation
passes, the job row is inserted, and the handler answers 200. -/
theorem c2_empty_skills_counterexample :
    (POST ⟨some sampleJD, some [], some 5⟩ sampleEnv).1.status = 200 ∧
    (POST ⟨some sampleJD, some [], some 5⟩ sampleEnv).2.jobsInserted ≠ [] := by
  constructor
  · decide
  · decide

/-- C2 amended: a payload with `selectedSkillIds = []` (and `jobData`
present, `posterFid` truthy) passes validation; when the primary insert
succeeds the handler answers 200, inserts the one job row, inserts no
`job_skills` rows, and attempts no notifications. -/
theorem c2_empty_skills_amended (jd : JobData) (pf : Int) (env : Env)
    (hpf : pf ≠ 0) (hins : env.jobInsertError = false) :
    (POST ⟨some jd, some [], some pf⟩ env).1.status = 200 ∧
    (POST ⟨some jd, some [], some pf⟩ env).2.jobsInserted
      = [mkJobRow env.newJobId jd] ∧
    (POST ⟨some jd, some [], some pf⟩ env).2.jobSkillsInserted = [] ∧
    (POST ⟨some jd, some [], some pf⟩ env).2.notifications = [] := by
  rw [POST_valid_eq jd [] pf env hpf]
  refine ⟨?_, postBody_jobs_ok jd [] env hins, ?_, ?_⟩
  · rw [postBody_resp_ok jd [] env hins]
  · rw [postBody_skills_ok jd [] env hins]; simp
  · by_cases hm : env.matchingError = true
    · exact postBody_notifs_matchErr jd [] env hins hm
    · have hm' : env.matchingError = false := by simpa using hm
      rw [postBody_notifs_ok jd [] env hins hm', matchingQuery_nil_skills]
      rfl

/-- Witness for the amended C2 at a concrete request and environment. -/
theorem c2_empty_skills_amended_witness :
    ((5 : Int) ≠ 0) ∧
    ((POST ⟨some sampleJD, some [], some 5⟩ sampleEnv).1.status = 200 ∧
     (POST ⟨some sampleJD, some [], some 5⟩ sampleEnv).2.jobsInserted
       = [mkJobRow sampleEnv.newJobId sampleJD] ∧
     (POST ⟨some sampleJD, some [], some 5⟩ sampleEnv).2.jobSkillsInserted
       = [] ∧
     (POST ⟨some sampleJD, some [], some 5⟩ sampleEnv).2.notifications
       = []) :=
  ⟨by decide, c2_empty_skills_amended sampleJD 5 sampleEnv (by decide) rfl⟩

/-- C3: on a validated request whose primary insert and matcher query
succeed, the fids of the attempted notifications are pairwise distinct
(each unique external-identity id is targeted at most once, however many
matched rows share it), and a fid is targeted exactly when some matched
row parses to it — so every qualifying id is in the target set. -/
theorem c3_notify_exactly_once_per_fid (jd : JobData) (sk : List String)
    (pf : Int) (env : Env) (n : Int) (hpf : pf ≠ 0)
    (hins : env.jobInsertError = false)
    (hm : env.matchingError = false) :
    ((POST ⟨some jd, some sk, some pf⟩ env).2.notifications.map
      NotificationPayload.fid).Nodup ∧
    (n ∈ (POST ⟨some jd, some sk, some pf⟩ env).2.notifications.map
        NotificationPayload.fid ↔
      ∃ r ∈ matchingQuery env.userSkills sk,
        rowFid r.profiles = some n) := by
  rw [POST_valid_eq jd sk pf env hpf, postBody_notifs_ok jd sk env hins hm,
    map_fid_notifyLoop _ _ _ (fun f => rfl)]
  exact ⟨uniqueFids_nodup _, mem_uniqueFids _ n⟩

/-- Witness for C3: the store holds one row parsing to fid 5; the attempt
list is duplicate-free and 5 is targeted exactly because that row matched. -/
theorem c3_notify_exactly_once_per_fid_witness :
    ((5 : Int) ≠ 0) ∧ posterEnv.jobInsertError = false ∧
    posterEnv.matchingError = false ∧
    (((POST ⟨some sampleJD, some ["s1"], some 5⟩ posterEnv).2.notifications.map
        NotificationPayload.fid).Nodup ∧
     ((5 : Int) ∈ (POST ⟨some sampleJD, some ["s1"], some 5⟩
          posterEnv).2.notifications.map NotificationPayload.fid ↔
       ∃ r ∈ matchingQuery posterEnv.userSkills ["s1"],
         rowFid r.profiles = some 5)) :=
  ⟨by decide, rfl, rfl,
   c3_notify_exactly_once_per_fid sampleJD ["s1"] 5 posterEnv 5 (by decide)
     rfl rfl⟩

/-- C4: when the primary insert succeeds and the `job_skills` insert
fails, the job row still exists in the trace and the handler still
answers 200. -/
theorem c4_skill_insert_failure_tolerated (jd : JobData)
    (sk : List String) (pf : Int) (env : Env) (hpf : pf ≠ 0)
    (hins : env.jobInsertError = false)
    (hsk : env.jobSkillsInsertError = true) :
    (POST ⟨some jd, some sk, some pf⟩ env).1.status = 200 ∧
    (POST ⟨some jd, some sk, some pf⟩ env).2.jobsInserted
      = [mkJobRow env.newJobId jd] := by
  rw [POST_valid_eq jd sk pf env hpf]
  exact ⟨by rw [postBody_resp_ok jd sk env hins],
    postBody_jobs_ok jd sk env hins⟩

/-- Witness for C4 at a concrete request and environment where only the
`job_skills` insert fails. -/
theorem c4_skill_insert_failure_tolerated_witness :
    ((5 : Int) ≠ 0) ∧ skillFailEnv.jobInsertError = false ∧
    skillFailEnv.jobSkillsInsertError = true ∧
    ((POST ⟨some sampleJD, some ["s1"], some 5⟩ skillFailEnv).1.status
       = 200 ∧
     (POST ⟨some sampleJD, some ["s1"], some 5⟩ skillFailEnv).2.jobsInserted
       = [mkJobRow skillFailEnv.newJobId sampleJD]) :=
  ⟨by decide, rfl, rfl,
   c4_skill_insert_failure_tolerated sampleJD ["s1"] 5 skillFailEnv
     (by decide) rfl rfl⟩

/-- C5: even when the delivery to some target in the fan-out fails (error
result or thrown exception), the loop still attempts delivery for every
target — the attempt list is one payload per target. -/
theorem c5_failure_isolated (outcome : Int → NotifyOutcome)
    (mk : Int → NotificationPayload) (targets : List Int) (t : Int)
    (ht : t ∈ targets)
    (hfail : outcome t = NotifyOutcome.errState ∨
      outcome t = NotifyOutcome.exn) :
    (notifyLoop outcome mk targets).1 = targets.map mk :=
  notifyLoop_fst outcome mk targets

/-- Witness for C5: delivery to fid 1 throws, yet all three targets are
attempted. -/
theorem c5_failure_isolated_witness :
    ((1 : Int) ∈ [(1 : Int), 2, 3]) ∧
    (failOutcome 1 = NotifyOutcome.errState ∨
      failOutcome 1 = NotifyOutcome.exn) ∧
    (notifyLoop failOutcome sampleMk [1, 2, 3]).1 = [(1 : Int), 2, 3].map sampleMk :=
  ⟨by decide, Or.inr (by decide),
   c5_failure_isolated failOutcome sampleMk [1, 2, 3] 1 (by decide)
     (Or.inr (by decide))⟩

/-- C6 counterexample: the poster-exclusion filter is commented out in
the source, so a poster who holds a required skill is notified about
their own job.  Here the request has `posterFid = 5` and
`jobData.posterId = "p1"`, the store holds only the poster row
(`user_id = "p1"`, fid 5), and the single attempted notification targets
fid 5 — the poster. -/
theorem c6_poster_notified_counterexample :
    (5 : Int) ∈
      ((POST ⟨some sampleJD, some ["s1"], some 5⟩ posterEnv).2.notifications.map
        NotificationPayload.fid) := by
  decide

/-- C6 amended: the handler does not exclude the poster — notification
targeting is entirely independent of the payload's `posterId`; a poster
holding a required skill is targeted like anyone else. -/
theorem c6_poster_not_excluded_amended (jd : JobData) (pid : String)
    (sk : List String) (pf : Int) (env : Env) :
    (POST ⟨some { jd with posterId := pid }, some sk, some pf⟩
        env).2.notifications =
    (POST ⟨some jd, some sk, some pf⟩ env).2.notifications := by
  by_cases hpf : pf = 0
  · subst hpf; simp [POST]
  · rw [POST_valid_eq _ sk pf env hpf, POST_valid_eq jd sk pf env hpf]
    by_cases hins : env.jobInsertError = true
    · rw [postBody_insertError _ sk env hins,
        postBody_insertError jd sk env hins]
    · have hins' : env.jobInsertError = false := by simpa using hins
      by_cases hm : env.matchingError = true
      · rw [postBody_notifs_matchErr _ sk env hins' hm,
          postBody_notifs_matchErr jd sk env hins' hm]
      · have hm' : env.matchingError = false := by simpa using hm
        rw [postBody_notifs_ok _ sk env hins' hm',
          postBody_notifs_ok jd sk env hins' hm']
        have hmk : mkPayload env.appBaseUrl
            (mkJobRow env.newJobId { jd with posterId := pid }) =
            mkPayload env.appBaseUrl (mkJobRow env.newJobId jd) := by
          funext f; simp [mkPayload, mkJobRow]
        rw [hmk]

/-- C7: every response status is 200, 400 or 500; 400 exactly when the
truthiness validation fails, 500 exactly when validation passes and the
primary insert errors, and 200 exactly when a job row was created —
independently of skill-association and notification outcomes. -/
theorem c7_response_classification (req : RequestPayload) (env : Env) :
    ((POST req env).1.status = 200 ∨ (POST req env).1.status = 400 ∨
      (POST req env).1.status = 500) ∧
    ((POST req env).1.status = 400 ↔ requestValid req = false) ∧
    ((POST req env).1.status = 500 ↔
      requestValid req = true ∧ env.jobInsertError = true) ∧
    ((POST req env).1.status = 200 ↔
      (POST req env).2.jobsInserted ≠ []) := by
  rcases req with ⟨jd, sk, pf⟩
  rcases jd with _ | jd
  · simp [POST, requestValid, Trace.empty]
  rcases sk with _ | sk
  · simp [POST, requestValid, Trace.empty]
  rcases pf with _ | pf
  · simp [POST, requestValid, fidTruthy, Trace.empty]
  by_cases hpf : pf = 0
  · subst hpf
    simp [POST, requestValid, fidTruthy, Trace.empty]
  · rw [POST_valid_eq jd sk pf env hpf]
    have hv : requestValid ⟨some jd, some sk, some pf⟩ = true := by
      simp [requestValid, fidTruthy, hpf]
    by_cases hins : env.jobInsertError = true
    · rw [postBody_insertError jd sk env hins]
      simp [hv, hins, Trace.empty]
    · have hins' : env.jobInsertError = false := by simpa using hins
      have hs := postBody_resp_ok jd sk env hins'
      have hj := postBody_jobs_ok jd sk env hins'
      rw [hs, hj]
      simp [hv, hins']

/-- C8: a matched row whose external-identity id does not parse as a
number — a `null` join value, an empty collection, a missing `fid` key,
or a non-numeric `fid` — contributes nothing to the deduplicated target
set: the fold drops it and dedup of the remaining rows is unchanged. -/
theorem c8_unparsable_fid_dropped :
    (∀ (pre post : List UserSkillRow) (r : UserSkillRow),
        rowFid r.profiles = none →
        uniqueFids (pre ++ r :: post) = uniqueFids (pre ++ post)) ∧
    rowFid ProfilesValue.nullv = none ∧
    rowFid (ProfilesValue.arr []) = none ∧
    (∀ rest, rowFid (ProfilesValue.arr ({ fid := none } :: rest)) = none) ∧
    rowFid (ProfilesValue.single { fid := none }) = none ∧
    rowFid (ProfilesValue.single { fid := some JSVal.nan }) = none ∧
    rowFid (ProfilesValue.single { fid := some JSVal.undef }) = none ∧
    (∀ s, rowFid (ProfilesValue.single { fid := some (JSVal.str s) })
      = none) := by
  refine ⟨?_, rfl, rfl, fun rest => rfl, rfl, rfl, rfl, fun s => rfl⟩
  intro pre post r h
  unfold uniqueFids
  exact uniqueFids_aux_drop r h pre post []

/-- Witness for C8: a row with a `null` join value is dropped from the
dedup of a concrete list. -/
theorem c8_unparsable_fid_dropped_witness :
    uniqueFids ([] ++
      ({ user_id := "u", skill_id := "s",
         profiles := ProfilesValue.nullv } : UserSkillRow) :: [posterRow]) =
    uniqueFids ([] ++ [posterRow]) :=
  c8_unparsable_fid_dropped.1 [] [posterRow]
    { user_id := "u", skill_id := "s", profiles := ProfilesValue.nullv } rfl

/-- C9: whenever the handler answers 200, the returned `jobId` identifies
the one inserted row, whose stored title and description equal the
payload's title and description verbatim. -/
theorem c9_roundtrip_title_description (jd : JobData) (sk : List String)
    (pf : Int) (env : Env)
    (h200 : (POST ⟨some jd, some sk, some pf⟩ env).1.status = 200) :
    ∃ row : JobRow,
      (POST ⟨some jd, some sk, some pf⟩ env).2.jobsInserted = [row] ∧
      (POST ⟨some jd, some sk, some pf⟩ env).1.jobId = some row.id ∧
      row.title = jd.title ∧ row.description = jd.description := by
  by_cases hpf : pf = 0
  · subst hpf; simp [POST] at h200
  · rw [POST_valid_eq jd sk pf env hpf] at h200 ⊢
    by_cases hins : env.jobInsertError = true
    · rw [postBody_insertError jd sk env hins] at h200; simp at h200
    · have hins' : env.jobInsertError = false := by simpa using hins
      refine ⟨mkJobRow env.newJobId jd, postBody_jobs_ok jd sk env hins',
        ?_, rfl, rfl⟩
      rw [postBody_resp_ok jd sk env hins']
      rfl

/-- Witness for C9 at a concrete request and environment. -/
theorem c9_roundtrip_title_description_witness :
    ∃ row : JobRow,
      (POST ⟨some sampleJD, some ["s1"], some 5⟩ sampleEnv).2.jobsInserted
        = [row] ∧
      (POST ⟨some sampleJD, some ["s1"], some 5⟩ sampleEnv).1.jobId
        = some row.id ∧
      row.title = sampleJD.title ∧ row.description = sampleJD.description :=
  c9_roundtrip_title_description sampleJD ["s1"] 5 sampleEnv (by decide)

/-- C10: a payload with all three fields present but `posterFid = 0` is
rejected with 400 and no job row is inserted — the guard tests JS
truthiness, and the number 0 is falsy. -/
theorem c10_zero_posterFid_rejected (jd : JobData) (sk : List String)
    (env : Env) :
    (POST ⟨some jd, some sk, some (0 : Int)⟩ env).1.status = 400 ∧
    (POST ⟨some jd, some sk, some (0 : Int)⟩ env).2.jobsInserted = [] := by
  simp [POST, Trace.empty]

end Farlance
